import Mathlib

/-
Verification of the request-validation-and-dispatch pipeline and the
OpenAPI documentation registry of next-typesafe-api-route.

The embedding follows src/api-handler.ts, src/types.ts and src/openapi.ts.
External capabilities (zod schemas, the auth handler, the business handler,
the body/form readers of the incoming request) are modelled as explicit
functions; every awaited call that can throw is modelled with Except.
The handler returned by createApiHandler is instrumented: next to the
response it reports the list of inputs the business handler was invoked
with and the list of slots whose safeParse actually ran, so that claims
about "invoked exactly once" and "validator runs" are stated directly.
-/

namespace NextTypesafeApi

/-- JSON-like values: the payloads flowing through the pipeline (request
bodies, form-data entries, opaque auth options and custom metadata). -/
inductive Json where
  | null
  | bool (b : Bool)
  | num (n : Int)
  | str (s : String)
  | arr (elems : List Json)
  | obj (fields : List (String × Json))
  deriving Repr, Inhabited

/-- Result of schema.safeParse(value) for a zod schema capability: success
with the typed data, or failure carrying the formatted issue tree that the
source stores via result.error.format(). -/
inductive SafeParseResult (α ET : Type) where
  | success (data : α)
  | failure (error : ET)
  deriving Repr, DecidableEq

/-- One value of the per-slot errors record of apiHandler: either a
formatted schema issue tree, or one of the fixed sentinel message strings
used for raw read/parse failures. -/
inductive SlotError (ET : Type) where
  | tree (e : ET)
  | msg (s : String)
  deriving Repr, DecidableEq

/-- The errors record accumulated by apiHandler (api-handler.ts line 37);
a field that is none is an absent key of the JavaScript object. -/
structure ErrorMap (ET : Type) where
  body : Option (SlotError ET) := none
  formData : Option (SlotError ET) := none
  query : Option (SlotError ET) := none
  pathParams : Option (SlotError ET) := none
  headers : Option (SlotError ET) := none
  deriving Repr, DecidableEq

/-- Whether the errors object has no keys; the source tests the negation
via Object.keys(errors).length > 0 (api-handler.ts line 140). -/
def ErrorMap.isEmpty {ET : Type} (m : ErrorMap ET) : Bool :=
  m.body.isNone && m.formData.isNone && m.query.isNone &&
    m.pathParams.isNone && m.headers.isNone

/-- The five validation slots of the pipeline. -/
inductive Slot where
  | body
  | formData
  | query
  | pathParams
  | headers
  deriving Repr, DecidableEq

/-- AuthResult (types.ts): outcome of the authentication handler. -/
structure AuthResult (TUser : Type) where
  success : Bool
  user : Option TUser := none
  error : Option String := none
  status : Option Nat := none
  deriving Repr, DecidableEq

/-- The incoming request consumed by the pipeline. Deferred reads that can
reject are modelled with Except: jsonBody is the result of awaiting
request.json(), formDataBody the result of awaiting request.formData().
searchParams and headers are the ordered pair collections that the
corresponding forEach loops iterate. -/
structure Request (E : Type) where
  method : String
  jsonBody : Except E Json
  formDataBody : Except E (List (String × Json))
  searchParams : List (String × String)
  headers : List (String × String)

/-- The optional dispatch context; context.params is the optional
extracted-path-parameters mapping supplied by the host framework. -/
structure RouteContext where
  params : Option (List (String × String)) := none

/-- Auth configuration (types.ts): handler, opaque options, scheme name.
The handler is invoked as options.auth.handler(request, options.auth.options)
and may throw, hence the Except result. -/
structure AuthConfig (TUser E : Type) where
  handler : Request E → Option Json → Except E (AuthResult TUser)
  options : Option Json := none
  scheme : Option String := none

/-- OpenApiMetadata (types.ts). The payload of a custom requestBody is kept
as opaque Json; custom responses are kept as a description per status key
(the zod content shapes of the external library are not needed by any
claim). -/
structure OpenApiMetadata where
  summary : String
  description : Option String := none
  tags : Option (List String) := none
  operationId : Option String := none
  includeInDocs : Option Bool := none
  requestBody : Option Json := none
  responses : Option (List (String × String)) := none

/-- The bundle of validated inputs passed to the business handler
(api-handler.ts lines 145-152). -/
structure HandlerParams (TBody TQuery TPath THeaders TUser E : Type) where
  body : Option TBody
  query : Option TQuery
  pathParams : Option TPath
  headers : Option THeaders
  user : Option TUser
  request : Request E

/-- ApiHandlerOptions (types.ts). Schemas are their safeParse functions.
The formDataSchema is z.ZodType of any in the source and its parsed data is
assigned into the body variable with a cast (api-handler.ts line 87), so it
is typed here with the body type. The business handler may throw, hence the
Except result. -/
structure ApiHandlerOptions (TBody TQuery TPath THeaders TUser TOutput ET E : Type) where
  bodySchema : Option (Json → SafeParseResult TBody ET) := none
  querySchema : Option (List (String × String) → SafeParseResult TQuery ET) := none
  pathParamsSchema : Option (List (String × String) → SafeParseResult TPath ET) := none
  headerSchema : Option (List (String × String) → SafeParseResult THeaders ET) := none
  formDataSchema : Option (List (String × Json) → SafeParseResult TBody ET) := none
  auth : Option (AuthConfig TUser E) := none
  responseSchema : Option (Json → SafeParseResult TOutput ET) := none
  openapi : Option OpenApiMetadata := none
  handler : HandlerParams TBody TQuery TPath THeaders TUser E → Except E TOutput

/-- Body of one NextResponse.json(...) produced by the pipeline: the
success payload passed through verbatim, an object with a single error
string, or an object with the per-slot errors record. -/
inductive ResponseBody (TOutput ET : Type) where
  | output (o : TOutput)
  | errorMsg (error : String)
  | errors (errors : ErrorMap ET)
  deriving Repr, DecidableEq

/-- An HTTP response: status code plus JSON body. NextResponse.json with no
init has status 200. -/
structure ApiResponse (TOutput ET : Type) where
  status : Nat
  body : ResponseBody TOutput ET
  deriving Repr, DecidableEq

/-- Observable result of one run of the request handler: the response, the
inputs the business handler was invoked with (in invocation order), and the
slots whose safeParse actually ran (in execution order). -/
structure DispatchResult (TBody TQuery TPath THeaders TUser TOutput ET E : Type) where
  response : ApiResponse TOutput ET
  handlerCalls : List (HandlerParams TBody TQuery TPath THeaders TUser E)
  validated : List Slot

/-- JavaScript x || d on an optional string: undefined and the empty
string (both falsy) fall back to the default. -/
def jsOrString (x : Option String) (d : String) : String :=
  match x with
  | none => d
  | some s => if s = "" then d else s

/-- JavaScript x || d on an optional number: undefined and 0 (both falsy)
fall back to the default. -/
def jsOrNat (x : Option Nat) (d : Nat) : Nat :=
  match x with
  | none => d
  | some n => if n = 0 then d else n

/-- One JavaScript object assignment obj[key] = value on an object
represented as an insertion-ordered association list: an existing key keeps
its position and receives the new value, a new key is appended. -/
def recordSet {V : Type} (r : List (String × V)) (k : String) (v : V) :
    List (String × V) :=
  if r.any (fun p => p.1 = k) then
    r.map (fun p => if p.1 = k then (k, v) else p)
  else
    r ++ [(k, v)]

/-- The object produced by a forEach loop that assigns obj[key] = value
over an ordered pair collection; for duplicate keys the last occurrence
wins, as in the query/header/form-data collection loops of the source. -/
def buildRecord {V : Type} (pairs : List (String × V)) : List (String × V) :=
  pairs.foldl (fun r p => recordSet r p.1 p.2) []

/-- Mutable state threaded through the validator blocks of apiHandler:
the typed result containers (api-handler.ts lines 32-35), the errors
record, and the instrumentation list of slots whose safeParse ran. -/
structure ValState (TBody TQuery TPath THeaders ET : Type) where
  body : Option TBody := none
  query : Option TQuery := none
  pathParams : Option TPath := none
  headers : Option THeaders := none
  errors : ErrorMap ET := {}
  validated : List Slot := []

variable {TBody TQuery TPath THeaders TUser TOutput ET E : Type}

/-- The raw body expression of the body block (api-handler.ts lines 59-61):
for GET and HEAD methods the raw body is the empty object and the transport
is not read; otherwise it is the result of awaiting request.json(). -/
def effectiveRawBody (r : Request E) : Except E Json :=
  if r.method = "GET" ∨ r.method = "HEAD" then Except.ok (Json.obj [])
  else r.jsonBody

/-- Body validation block (api-handler.ts lines 57-72). A raw read/parse
rejection is caught and recorded as the fixed sentinel message without
running safeParse; a schema rejection records the formatted issue tree. -/
def validateBody (o : ApiHandlerOptions TBody TQuery TPath THeaders TUser TOutput ET E)
    (r : Request E) (s : ValState TBody TQuery TPath THeaders ET) :
    ValState TBody TQuery TPath THeaders ET :=
  match o.bodySchema with
  | none => s
  | some schema =>
    match effectiveRawBody r with
    | Except.error _ =>
      { s with errors.body := some (SlotError.msg "Invalid JSON in request body") }
    | Except.ok raw =>
      match schema raw with
      | SafeParseResult.success d =>
        { s with body := some d, validated := s.validated ++ [Slot.body] }
      | SafeParseResult.failure e =>
        { s with errors.body := some (SlotError.tree e),
                 validated := s.validated ++ [Slot.body] }

/-- Form-data validation block (api-handler.ts lines 75-94). The parsed
data is assigned into the same body container as the body block; a
rejected form-data read is caught and recorded as the fixed sentinel. -/
def validateFormData (o : ApiHandlerOptions TBody TQuery TPath THeaders TUser TOutput ET E)
    (r : Request E) (s : ValState TBody TQuery TPath THeaders ET) :
    ValState TBody TQuery TPath THeaders ET :=
  match o.formDataSchema with
  | none => s
  | some schema =>
    match r.formDataBody with
    | Except.error _ =>
      { s with errors.formData := some (SlotError.msg "Invalid form data") }
    | Except.ok pairs =>
      match schema (buildRecord pairs) with
      | SafeParseResult.success d =>
        { s with body := some d, validated := s.validated ++ [Slot.formData] }
      | SafeParseResult.failure e =>
        { s with errors.formData := some (SlotError.tree e),
                 validated := s.validated ++ [Slot.formData] }

/-- Query validation block (api-handler.ts lines 97-110): the query string
entries are collected into a flat record (last duplicate wins) and
validated. -/
def validateQuery (o : ApiHandlerOptions TBody TQuery TPath THeaders TUser TOutput ET E)
    (r : Request E) (s : ValState TBody TQuery TPath THeaders ET) :
    ValState TBody TQuery TPath THeaders ET :=
  match o.querySchema with
  | none => s
  | some schema =>
    match schema (buildRecord r.searchParams) with
    | SafeParseResult.success d =>
      { s with query := some d, validated := s.validated ++ [Slot.query] }
    | SafeParseResult.failure e =>
      { s with errors.query := some (SlotError.tree e),
               validated := s.validated ++ [Slot.query] }

/-- Path-parameter validation block (api-handler.ts lines 113-121): runs
only when a schema is configured and the dispatch context actually
supplies a params mapping; context.params is validated as supplied. -/
def validatePathParams (o : ApiHandlerOptions TBody TQuery TPath THeaders TUser TOutput ET E)
    (c : Option RouteContext) (s : ValState TBody TQuery TPath THeaders ET) :
    ValState TBody TQuery TPath THeaders ET :=
  match o.pathParamsSchema with
  | none => s
  | some schema =>
    match c with
    | none => s
    | some ctx =>
      match ctx.params with
      | none => s
      | some ps =>
        match schema ps with
        | SafeParseResult.success d =>
          { s with pathParams := some d, validated := s.validated ++ [Slot.pathParams] }
        | SafeParseResult.failure e =>
          { s with errors.pathParams := some (SlotError.tree e),
                   validated := s.validated ++ [Slot.pathParams] }

/-- Header validation block (api-handler.ts lines 124-137): the header
entries are collected into a flat record and validated. -/
def validateHeaders (o : ApiHandlerOptions TBody TQuery TPath THeaders TUser TOutput ET E)
    (r : Request E) (s : ValState TBody TQuery TPath THeaders ET) :
    ValState TBody TQuery TPath THeaders ET :=
  match o.headerSchema with
  | none => s
  | some schema =>
    match schema (buildRecord r.headers) with
    | SafeParseResult.success d =>
      { s with headers := some d, validated := s.validated ++ [Slot.headers] }
    | SafeParseResult.failure e =>
      { s with errors.headers := some (SlotError.tree e),
               validated := s.validated ++ [Slot.headers] }

/-- The five validator blocks in source order: body, formData, query,
pathParams, headers. -/
def runValidators (o : ApiHandlerOptions TBody TQuery TPath THeaders TUser TOutput ET E)
    (r : Request E) (c : Option RouteContext) : ValState TBody TQuery TPath THeaders ET :=
  validateHeaders o r
    (validatePathParams o c
      (validateQuery o r
        (validateFormData o r
          (validateBody o r {}))))

/-- Aggregation and dispatch (api-handler.ts lines 139-161): with any
recorded error respond 400 with the errors record and never invoke the
business handler; otherwise invoke it exactly once with the validated
bundle and pass its resolved output through verbatim as the 200 body. A
rejection thrown by the business handler is caught by the outer catch and
reported as the opaque 500. -/
def validateAndDispatch (o : ApiHandlerOptions TBody TQuery TPath THeaders TUser TOutput ET E)
    (r : Request E) (c : Option RouteContext) (user : Option TUser) :
    DispatchResult TBody TQuery TPath THeaders TUser TOutput ET E :=
  let v := runValidators o r c
  if v.errors.isEmpty then
    let p : HandlerParams TBody TQuery TPath THeaders TUser E :=
      ⟨v.body, v.query, v.pathParams, v.headers, user, r⟩
    match o.handler p with
    | Except.ok out => ⟨⟨200, ResponseBody.output out⟩, [p], v.validated⟩
    | Except.error _ =>
      ⟨⟨500, ResponseBody.errorMsg "Internal server error"⟩, [p], v.validated⟩
  else
    ⟨⟨400, ResponseBody.errors v.errors⟩, [], v.validated⟩

/-- The request handler apiHandler (api-handler.ts lines 29-162). The auth
gate runs first (lines 40-54): a thrown auth handler is caught by the outer
catch and reported as the opaque 500; a failure outcome short-circuits with
the JavaScript-falsy defaults error || Unauthorized and status || 401;
a success outcome carries user forward into validation and dispatch. -/
def apiHandler (o : ApiHandlerOptions TBody TQuery TPath THeaders TUser TOutput ET E)
    (r : Request E) (c : Option RouteContext) :
    DispatchResult TBody TQuery TPath THeaders TUser TOutput ET E :=
  match o.auth with
  | none => validateAndDispatch o r c none
  | some a =>
    match a.handler r a.options with
    | Except.error _ => ⟨⟨500, ResponseBody.errorMsg "Internal server error"⟩, [], []⟩
    | Except.ok ar =>
      if ar.success then validateAndDispatch o r c ar.user
      else
        ⟨⟨jsOrNat ar.status 401, ResponseBody.errorMsg (jsOrString ar.error "Unauthorized")⟩,
          [], []⟩

/-- createApiHandler (api-handler.ts lines 12-28) returns the apiHandler
closure over the options. -/
def createApiHandler (o : ApiHandlerOptions TBody TQuery TPath THeaders TUser TOutput ET E) :
    Request E → Option RouteContext → DispatchResult TBody TQuery TPath THeaders TUser TOutput ET E :=
  fun r c => apiHandler o r c

/-- Whether the auth gate lets the request through: no auth configured, or
the auth handler resolves with a success outcome. -/
def authPasses (o : ApiHandlerOptions TBody TQuery TPath THeaders TUser TOutput ET E)
    (r : Request E) : Prop :=
  match o.auth with
  | none => True
  | some a =>
    match a.handler r a.options with
    | Except.ok ar => ar.success = true
    | Except.error _ => False

/-- The user carried forward by a passing auth gate (none when no auth is
configured or the outcome has no user). -/
def authUser (o : ApiHandlerOptions TBody TQuery TPath THeaders TUser TOutput ET E)
    (r : Request E) : Option TUser :=
  match o.auth with
  | none => none
  | some a =>
    match a.handler r a.options with
    | Except.ok ar => ar.user
    | Except.error _ => none

/-- Splits a character list at the first closing square bracket:
the first component holds the characters strictly before it, the second
the remainder starting at that bracket (empty when there is none). -/
def splitAtRBracket : List Char → List Char × List Char
  | [] => ([], [])
  | c :: rest =>
    if c = ']' then ([], c :: rest)
    else (c :: (splitAtRBracket rest).1, (splitAtRBracket rest).2)

/-- Global replacement of the regex that rewrites [name] to the brace form
(api-handler.ts line 241), on an explicit fuel so that the scan is
structurally recursive: at an opening bracket, a nonempty run of
non-closing-bracket characters followed by a closing bracket is rewritten
into braces; on no match the scan advances one character, exactly as the
global regex replace does. The fuel, one unit per consumed character, is
never exhausted when the scan starts with the length of the list. -/
def convertCharsGo : Nat → List Char → List Char
  | _, [] => []
  | 0, cs => cs
  | fuel + 1, c :: rest =>
    if c = '[' then
      match splitAtRBracket rest with
      | ([], _) => c :: convertCharsGo fuel rest
      | (i :: is, ']' :: after) => '{' :: i :: is ++ '}' :: convertCharsGo fuel after
      | (_ :: _, _) => c :: convertCharsGo fuel rest
    else c :: convertCharsGo fuel rest

/-- The bracket-to-brace rewriting of a whole character list. -/
def convertChars (cs : List Char) : List Char :=
  convertCharsGo cs.length cs

/-- Path normalization performed by registerOpenApiRoute (api-handler.ts
lines 239-241): a path that already contains an opening brace is passed
through unchanged; otherwise every bracket segment is rewritten to the
brace dialect. -/
def openApiPath (path : String) : String :=
  if path.data.contains '{' then path
  else String.mk (convertChars path.data)

/-- Which content is stored for the request body of a registered route:
the JSON body schema, the multipart form-data schema, or the custom
requestBody supplied in the metadata (api-handler.ts lines 252-268). -/
inductive RequestBodySource where
  | jsonSchema
  | multipartFormSchema
  | custom (payload : Json)

/-- One entry of the OpenAPI registry, as built by registerPath. Schema
values are stored by the external library; this embedding records for each
schema position whether a schema was supplied (the ZodObject/ZodEffects
class narrowing applied by the source to query/header/params schemas
belongs to the external zod library and is not modelled; schemas here are
plain functions). -/
structure RouteEntry where
  method : String
  path : String
  summary : String
  description : Option String
  tags : Option (List String)
  operationId : Option String
  requestBody : Option RequestBodySource
  hasQuery : Bool
  hasHeaders : Bool
  hasParams : Bool
  responses : List (String × String)
  security : Option String

/-- Modelled from the spec: the external OpenAPIRegistry of the
documentation library is an insertion-ordered, append-only collection of
registered path items; registerPath appends one entry and never
deduplicates. -/
abbrev Registry := List RouteEntry

/-- Appends one registered path item to the registry. -/
def Registry.registerPath (reg : Registry) (e : RouteEntry) : Registry :=
  reg ++ [e]

/-- The responses record built by registerOpenApiRoute (api-handler.ts
lines 288-332), in spread order: a 200 entry only when a response schema
was supplied, then the fixed 400/401/500 entries, then the caller-supplied
custom responses merged last (overriding by key, as object spread does). -/
def buildResponses (hasResponseSchema : Bool)
    (custom : Option (List (String × String))) : List (String × String) :=
  let base :=
    (if hasResponseSchema then [("200", "Successful response")] else []) ++
      [("400", "Bad request"), ("401", "Unauthorized"),
        ("500", "Internal server error")]
  (custom.getD []).foldl (fun m p => recordSet m p.1 p.2) base

/-- registerOpenApiRoute (api-handler.ts lines 212-335): normalizes the
path and appends one entry to the registry. The security requirement is
declared exactly when auth is configured, under auth.scheme || bearerAuth. -/
def registerOpenApiRoute (method path : String)
    (bodySchema : Option (Json → SafeParseResult TBody ET))
    (querySchema : Option (List (String × String) → SafeParseResult TQuery ET))
    (pathParamsSchema : Option (List (String × String) → SafeParseResult TPath ET))
    (headerSchema : Option (List (String × String) → SafeParseResult THeaders ET))
    (formDataSchema : Option (List (String × Json) → SafeParseResult TBody ET))
    (responseSchema : Option (Json → SafeParseResult TOutput ET))
    (auth : Option (AuthConfig TUser E))
    (metadata : OpenApiMetadata)
    (registry : Registry) : Registry :=
  registry.registerPath
    { method := method.toLower
      path := openApiPath path
      summary := metadata.summary
      description := metadata.description
      tags := metadata.tags
      operationId := metadata.operationId
      requestBody :=
        match bodySchema with
        | some _ => some RequestBodySource.jsonSchema
        | none =>
          match formDataSchema with
          | some _ => some RequestBodySource.multipartFormSchema
          | none => metadata.requestBody.map RequestBodySource.custom
      hasQuery := querySchema.isSome
      hasHeaders := headerSchema.isSome
      hasParams := pathParamsSchema.isSome
      responses := buildResponses responseSchema.isSome metadata.responses
      security := auth.map (fun a => jsOrString a.scheme "bearerAuth") }

/-- createDocumentedApiHandler (api-handler.ts lines 168-207): registers
the endpoint when openapi metadata is present and includeInDocs is not
explicitly false, then returns the plain request handler. The mutation of
the passed registry is modelled by returning the updated registry next to
the returned handler. -/
def createDocumentedApiHandler (method path : String)
    (o : ApiHandlerOptions TBody TQuery TPath THeaders TUser TOutput ET E)
    (registry : Registry) :
    Registry ×
      (Request E → Option RouteContext →
        DispatchResult TBody TQuery TPath THeaders TUser TOutput ET E) :=
  let registry' :=
    match o.openapi with
    | some md =>
      if md.includeInDocs ≠ some false then
        registerOpenApiRoute method path o.bodySchema o.querySchema
          o.pathParamsSchema o.headerSchema o.formDataSchema o.responseSchema
          o.auth md registry
      else registry
    | none => registry
  (registry', createApiHandler o)

/-- One server entry of the OpenAPI configuration (openapi.ts). -/
structure OpenApiServer where
  url : String
  description : Option String := none

/-- OpenApiConfig (openapi.ts). -/
structure OpenApiConfig where
  title : String
  version : String
  description : Option String := none
  servers : Option (List OpenApiServer) := none
  securitySchemes : Option (List (String × Json)) := none

/-- The caller-supplied configuration of generateOpenApiDocument, with
every field optional; a field that is none is omitted and keeps the
default under the object spread merge. -/
structure OpenApiConfigOverride where
  title : Option String := none
  version : Option String := none
  description : Option String := none
  servers : Option (List OpenApiServer) := none
  securitySchemes : Option (List (String × Json)) := none

/-- defaultConfig (openapi.ts lines 32-54). -/
def defaultConfig : OpenApiConfig :=
  { title := "API Documentation"
    version := "1.0.0"
    description := some "API documentation generated with next-typesafe-api"
    servers := some [{ url := "http://localhost:3000",
                       description := some "Local development server" }]
    securitySchemes := some
      [("bearerAuth", Json.obj
          [("type", Json.str "http"), ("scheme", Json.str "bearer"),
            ("bearerFormat", Json.str "JWT")]),
        ("apiKeyAuth", Json.obj
          [("type", Json.str "apiKey"), ("in", Json.str "header"),
            ("name", Json.str "x-api-key")])] }

/-- The merged configuration, mirroring the object spread of the default
with the caller-supplied overrides (openapi.ts line 63). -/
def mergeConfig (config : Option OpenApiConfigOverride) : OpenApiConfig :=
  match config with
  | none => defaultConfig
  | some c =>
    { title := c.title.getD defaultConfig.title
      version := c.version.getD defaultConfig.version
      description := match c.description with
        | some d => some d
        | none => defaultConfig.description
      servers := match c.servers with
        | some s => some s
        | none => defaultConfig.servers
      securitySchemes := match c.securitySchemes with
        | some s => some s
        | none => defaultConfig.securitySchemes }

/-- The synthesized OpenAPI document. The rendering of registry entries
into path items is performed by the external generator; modelled from the
spec: synthesis is a pure read that enumerates every registered entry of
the registry it is given. -/
structure OpenApiDocument where
  openapi : String
  title : String
  version : String
  description : Option String
  servers : Option (List OpenApiServer)
  paths : List RouteEntry

/-- generateOpenApiDocument (openapi.ts lines 59-75): merges the
configuration over the defaults and renders the document from the
registry definitions (an absent registry contributes no entries). -/
def generateOpenApiDocument (config : Option OpenApiConfigOverride)
    (registry : Option Registry) : OpenApiDocument :=
  let mergedConfig := mergeConfig config
  { openapi := "3.0.0"
    title := mergedConfig.title
    version := mergedConfig.version
    description := mergedConfig.description
    servers := mergedConfig.servers
    paths := registry.getD [] }

/-- Number of synthesized path items with the given method and path. -/
def OpenApiDocument.countEntries (doc : OpenApiDocument)
    (method path : String) : Nat :=
  (doc.paths.filter (fun e => e.method == method && e.path == path)).length

/-- The optional extracted-path-parameters mapping of the dispatch context,
the value of the expression context?.params. -/
def contextParams : Option RouteContext → Option (List (String × String))
  | none => none
  | some ctx => ctx.params

section StepLemmas

variable {o : ApiHandlerOptions TBody TQuery TPath THeaders TUser TOutput ET E}
variable {r : Request E} {c : Option RouteContext}
variable {s : ValState TBody TQuery TPath THeaders ET}

theorem validateBody_errors_formData :
    (validateBody o r s).errors.formData = s.errors.formData := by
  unfold validateBody
  split
  · rfl
  · split
    · rfl
    · split <;> rfl

theorem validateBody_errors_query :
    (validateBody o r s).errors.query = s.errors.query := by
  unfold validateBody
  split
  · rfl
  · split
    · rfl
    · split <;> rfl

theorem validateBody_errors_pathParams :
    (validateBody o r s).errors.pathParams = s.errors.pathParams := by
  unfold validateBody
  split
  · rfl
  · split
    · rfl
    · split <;> rfl

theorem validateBody_errors_headers :
    (validateBody o r s).errors.headers = s.errors.headers := by
  unfold validateBody
  split
  · rfl
  · split
    · rfl
    · split <;> rfl

theorem validateFormData_errors_body :
    (validateFormData o r s).errors.body = s.errors.body := by
  unfold validateFormData
  split
  · rfl
  · split
    · rfl
    · split <;> rfl

theorem validateFormData_errors_query :
    (validateFormData o r s).errors.query = s.errors.query := by
  unfold validateFormData
  split
  · rfl
  · split
    · rfl
    · split <;> rfl

theorem validateFormData_errors_pathParams :
    (validateFormData o r s).errors.pathParams = s.errors.pathParams := by
  unfold validateFormData
  split
  · rfl
  · split
    · rfl
    · split <;> rfl

theorem validateFormData_errors_headers :
    (validateFormData o r s).errors.headers = s.errors.headers := by
  unfold validateFormData
  split
  · rfl
  · split
    · rfl
    · split <;> rfl

theorem validateQuery_errors_body :
    (validateQuery o r s).errors.body = s.errors.body := by
  unfold validateQuery
  split
  · rfl
  · split <;> rfl

theorem validateQuery_errors_formData :
    (validateQuery o r s).errors.formData = s.errors.formData := by
  unfold validateQuery
  split
  · rfl
  · split <;> rfl

theorem validateQuery_errors_headers :
    (validateQuery o r s).errors.headers = s.errors.headers := by
  unfold validateQuery
  split
  · rfl
  · split <;> rfl

theorem validateQuery_body :
    (validateQuery o r s).body = s.body := by
  unfold validateQuery
  split
  · rfl
  · split <;> rfl

theorem validatePathParams_errors_body :
    (validatePathParams o c s).errors.body = s.errors.body := by
  unfold validatePathParams
  split
  · rfl
  · split
    · rfl
    · split
      · rfl
      · split <;> rfl

theorem validatePathParams_errors_formData :
    (validatePathParams o c s).errors.formData = s.errors.formData := by
  unfold validatePathParams
  split
  · rfl
  · split
    · rfl
    · split
      · rfl
      · split <;> rfl

theorem validatePathParams_errors_query :
    (validatePathParams o c s).errors.query = s.errors.query := by
  unfold validatePathParams
  split
  · rfl
  · split
    · rfl
    · split
      · rfl
      · split <;> rfl

theorem validatePathParams_errors_headers :
    (validatePathParams o c s).errors.headers = s.errors.headers := by
  unfold validatePathParams
  split
  · rfl
  · split
    · rfl
    · split
      · rfl
      · split <;> rfl

theorem validatePathParams_body :
    (validatePathParams o c s).body = s.body := by
  unfold validatePathParams
  split
  · rfl
  · split
    · rfl
    · split
      · rfl
      · split <;> rfl

theorem validateHeaders_errors_body :
    (validateHeaders o r s).errors.body = s.errors.body := by
  unfold validateHeaders
  split
  · rfl
  · split <;> rfl

theorem validateHeaders_errors_formData :
    (validateHeaders o r s).errors.formData = s.errors.formData := by
  unfold validateHeaders
  split
  · rfl
  · split <;> rfl

theorem validateHeaders_errors_query :
    (validateHeaders o r s).errors.query = s.errors.query := by
  unfold validateHeaders
  split
  · rfl
  · split <;> rfl

theorem validateHeaders_errors_pathParams :
    (validateHeaders o r s).errors.pathParams = s.errors.pathParams := by
  unfold validateHeaders
  split
  · rfl
  · split <;> rfl

theorem validateHeaders_body :
    (validateHeaders o r s).body = s.body := by
  unfold validateHeaders
  split
  · rfl
  · split <;> rfl

theorem validateBody_validated_mem {sl : Slot}
    (h : sl ∈ (validateBody o r s).validated) :
    sl ∈ s.validated ∨ sl = Slot.body := by
  unfold validateBody at h
  split at h
  · exact Or.inl h
  · split at h
    · exact Or.inl h
    · split at h <;>
        · simp only [List.mem_append, List.mem_singleton] at h
          exact h

theorem validateFormData_validated_mem {sl : Slot}
    (h : sl ∈ (validateFormData o r s).validated) :
    sl ∈ s.validated ∨ sl = Slot.formData := by
  unfold validateFormData at h
  split at h
  · exact Or.inl h
  · split at h
    · exact Or.inl h
    · split at h <;>
        · simp only [List.mem_append, List.mem_singleton] at h
          exact h

theorem validateQuery_validated_mem {sl : Slot}
    (h : sl ∈ (validateQuery o r s).validated) :
    sl ∈ s.validated ∨ sl = Slot.query := by
  unfold validateQuery at h
  split at h
  · exact Or.inl h
  · split at h <;>
      · simp only [List.mem_append, List.mem_singleton] at h
        exact h

theorem validatePathParams_validated_mem {sl : Slot}
    (h : sl ∈ (validatePathParams o c s).validated) :
    sl ∈ s.validated ∨ sl = Slot.pathParams := by
  unfold validatePathParams at h
  split at h
  · exact Or.inl h
  · split at h
    · exact Or.inl h
    · split at h
      · exact Or.inl h
      · split at h <;>
          · simp only [List.mem_append, List.mem_singleton] at h
            exact h

theorem validateHeaders_validated_mem {sl : Slot}
    (h : sl ∈ (validateHeaders o r s).validated) :
    sl ∈ s.validated ∨ sl = Slot.headers := by
  unfold validateHeaders at h
  split at h
  · exact Or.inl h
  · split at h <;>
      · simp only [List.mem_append, List.mem_singleton] at h
        exact h

theorem validatePathParams_validated_mem_of_mem {sl : Slot}
    (h : sl ∈ s.validated) :
    sl ∈ (validatePathParams o c s).validated := by
  unfold validatePathParams
  split
  · exact h
  · split
    · exact h
    · split
      · exact h
      · split <;>
          · simp only [List.mem_append]
            exact Or.inl h

theorem validateHeaders_validated_mem_of_mem {sl : Slot}
    (h : sl ∈ s.validated) :
    sl ∈ (validateHeaders o r s).validated := by
  unfold validateHeaders
  split
  · exact h
  · split <;>
      · simp only [List.mem_append]
        exact Or.inl h

end StepLemmas

section PipelineLemmas

variable {o : ApiHandlerOptions TBody TQuery TPath THeaders TUser TOutput ET E}
variable {r : Request E} {c : Option RouteContext}
variable {s : ValState TBody TQuery TPath THeaders ET}

theorem isEmpty_eq_false_of_query {m : ErrorMap ET} {e : SlotError ET}
    (h : m.query = some e) : m.isEmpty = false := by
  simp [ErrorMap.isEmpty, h]

theorem isEmpty_eq_false_of_body {m : ErrorMap ET} {e : SlotError ET}
    (h : m.body = some e) : m.isEmpty = false := by
  simp [ErrorMap.isEmpty, h]

/-- The handler parameters assembled from the validator results and the
authenticated user (api-handler.ts lines 145-152). -/
def dispatchParams (o : ApiHandlerOptions TBody TQuery TPath THeaders TUser TOutput ET E)
    (r : Request E) (c : Option RouteContext) (u : Option TUser) :
    HandlerParams TBody TQuery TPath THeaders TUser E :=
  ⟨(runValidators o r c).body, (runValidators o r c).query,
    (runValidators o r c).pathParams, (runValidators o r c).headers, u, r⟩

theorem validateAndDispatch_of_errors {u : Option TUser}
    (h : (runValidators o r c).errors.isEmpty = false) :
    validateAndDispatch o r c u =
      ⟨⟨400, ResponseBody.errors (runValidators o r c).errors⟩, [],
        (runValidators o r c).validated⟩ := by
  unfold validateAndDispatch
  simp only [h]
  rfl

theorem validateAndDispatch_of_ok {u : Option TUser} {out : TOutput}
    (h : (runValidators o r c).errors.isEmpty = true)
    (hout : o.handler (dispatchParams o r c u) = Except.ok out) :
    validateAndDispatch o r c u =
      ⟨⟨200, ResponseBody.output out⟩, [dispatchParams o r c u],
        (runValidators o r c).validated⟩ := by
  unfold validateAndDispatch
  simp only [h, if_true]
  unfold dispatchParams at hout
  rw [hout]
  rfl

theorem validateAndDispatch_of_handlerError {u : Option TUser} {e : E}
    (h : (runValidators o r c).errors.isEmpty = true)
    (hout : o.handler (dispatchParams o r c u) = Except.error e) :
    validateAndDispatch o r c u =
      ⟨⟨500, ResponseBody.errorMsg "Internal server error"⟩, [dispatchParams o r c u],
        (runValidators o r c).validated⟩ := by
  unfold validateAndDispatch
  simp only [h, if_true]
  unfold dispatchParams at hout
  rw [hout]
  rfl

theorem apiHandler_of_authPasses (h : authPasses o r) :
    apiHandler o r c = validateAndDispatch o r c (authUser o r) := by
  unfold authPasses at h
  rcases ha : o.auth with _ | a
  · simp only [apiHandler, authUser, ha]
  · simp only [ha] at h
    rcases hr : a.handler r a.options with e | ar
    · simp only [hr] at h
    · simp only [hr] at h
      simp only [apiHandler, authUser, ha, hr, h, if_true]

theorem validateBody_errors_of_rawError {bs : Json → SafeParseResult TBody ET} {err : E}
    (hb : o.bodySchema = some bs) (he : effectiveRawBody r = Except.error err) :
    (validateBody o r s).errors.body =
      some (SlotError.msg "Invalid JSON in request body") := by
  unfold validateBody
  rw [hb, he]

theorem validateBody_validated_of_rawError {bs : Json → SafeParseResult TBody ET} {err : E}
    (hb : o.bodySchema = some bs) (he : effectiveRawBody r = Except.error err) :
    (validateBody o r s).validated = s.validated := by
  unfold validateBody
  rw [hb, he]

theorem validateBody_errors_of_parseFailure {bs : Json → SafeParseResult TBody ET}
    {raw : Json} {et : ET}
    (hb : o.bodySchema = some bs) (he : effectiveRawBody r = Except.ok raw)
    (hf : bs raw = SafeParseResult.failure et) :
    (validateBody o r s).errors.body = some (SlotError.tree et) := by
  simp only [validateBody, hb, he, hf]

theorem validateBody_validated_of_parsed {bs : Json → SafeParseResult TBody ET} {raw : Json}
    (hb : o.bodySchema = some bs) (he : effectiveRawBody r = Except.ok raw) :
    (validateBody o r s).validated = s.validated ++ [Slot.body] := by
  simp only [validateBody, hb, he]
  split <;> rfl

theorem validateFormData_body_of_success {fs : List (String × Json) → SafeParseResult TBody ET}
    {pairs : List (String × Json)} {d : TBody}
    (hf : o.formDataSchema = some fs) (hfd : r.formDataBody = Except.ok pairs)
    (hd : fs (buildRecord pairs) = SafeParseResult.success d) :
    (validateFormData o r s).body = some d := by
  simp only [validateFormData, hf, hfd, hd]

theorem validateFormData_validated_of_parsed {fs : List (String × Json) → SafeParseResult TBody ET}
    {pairs : List (String × Json)}
    (hf : o.formDataSchema = some fs) (hfd : r.formDataBody = Except.ok pairs) :
    (validateFormData o r s).validated = s.validated ++ [Slot.formData] := by
  simp only [validateFormData, hf, hfd]
  split <;> rfl

theorem validateQuery_errors_of_failure {qs : List (String × String) → SafeParseResult TQuery ET}
    {e : ET}
    (hq : o.querySchema = some qs)
    (hf : qs (buildRecord r.searchParams) = SafeParseResult.failure e) :
    (validateQuery o r s).errors.query = some (SlotError.tree e) := by
  simp only [validateQuery, hq, hf]

theorem validateQuery_validated_of_some {qs : List (String × String) → SafeParseResult TQuery ET}
    (hq : o.querySchema = some qs) :
    (validateQuery o r s).validated = s.validated ++ [Slot.query] := by
  simp only [validateQuery, hq]
  split <;> rfl

theorem validateHeaders_errors_of_failure {hs : List (String × String) → SafeParseResult THeaders ET}
    {e : ET}
    (hh : o.headerSchema = some hs)
    (hf : hs (buildRecord r.headers) = SafeParseResult.failure e) :
    (validateHeaders o r s).errors.headers = some (SlotError.tree e) := by
  simp only [validateHeaders, hh, hf]

theorem validateHeaders_validated_of_some {hs : List (String × String) → SafeParseResult THeaders ET}
    (hh : o.headerSchema = some hs) :
    (validateHeaders o r s).validated = s.validated ++ [Slot.headers] := by
  simp only [validateHeaders, hh]
  split <;> rfl

theorem validateFormData_validated_mem_of_mem {sl : Slot}
    (h : sl ∈ s.validated) :
    sl ∈ (validateFormData o r s).validated := by
  unfold validateFormData
  split
  · exact h
  · split
    · exact h
    · split <;>
        · simp only [List.mem_append]
          exact Or.inl h

theorem validateQuery_validated_mem_of_mem {sl : Slot}
    (h : sl ∈ s.validated) :
    sl ∈ (validateQuery o r s).validated := by
  unfold validateQuery
  split
  · exact h
  · split <;>
      · simp only [List.mem_append]
        exact Or.inl h

theorem validatePathParams_of_noParams (h : contextParams c = none) :
    validatePathParams o c s = s := by
  rcases c with _ | ctx
  · unfold validatePathParams
    split <;> rfl
  · simp only [contextParams] at h
    simp only [validatePathParams, h]
    all_goals split <;> rfl

theorem runValidators_of_noParams (h : contextParams c = none) :
    runValidators o r c =
      runValidators { o with pathParamsSchema := none } r c := by
  unfold runValidators
  rw [validatePathParams_of_noParams h, validatePathParams_of_noParams h]
  rfl

theorem apiHandler_of_noParams (h : contextParams c = none) :
    apiHandler o r c = apiHandler { o with pathParamsSchema := none } r c := by
  have hv : ∀ u : Option TUser,
      validateAndDispatch o r c u =
        validateAndDispatch { o with pathParamsSchema := none } r c u := by
    intro u
    unfold validateAndDispatch
    rw [runValidators_of_noParams h]
  rcases ha : o.auth with _ | a
  · simp only [apiHandler, ha]
    exact hv none
  · simp only [apiHandler, ha]
    rcases hr : a.handler r a.options with e | ar
    · simp only [hr]
    · simp only [hr]
      rcases hsu : ar.success with _ | _
      · simp only [hsu, Bool.false_eq_true, if_false]
      · simp only [hsu, if_true]
        exact hv ar.user

theorem validateFormData_req_jsonBody (j : Except E Json) :
    validateFormData o { r with jsonBody := j } s = validateFormData o r s := by
  unfold validateFormData
  split <;> rfl

theorem validateQuery_req_jsonBody (j : Except E Json) :
    validateQuery o { r with jsonBody := j } s = validateQuery o r s := by
  unfold validateQuery
  split <;> rfl

theorem validateHeaders_req_jsonBody (j : Except E Json) :
    validateHeaders o { r with jsonBody := j } s = validateHeaders o r s := by
  unfold validateHeaders
  split <;> rfl

theorem runValidators_getHead_jsonBody_irrelevant
    (hm : r.method = "GET" ∨ r.method = "HEAD") (j : Except E Json) :
    runValidators o { r with jsonBody := j } c = runValidators o r c := by
  have hb : validateBody o { r with jsonBody := j }
      ({} : ValState TBody TQuery TPath THeaders ET) =
      validateBody o r ({} : ValState TBody TQuery TPath THeaders ET) := by
    unfold validateBody effectiveRawBody
    rcases hm with h | h <;> simp [h]
  unfold runValidators
  rw [hb, validateFormData_req_jsonBody j, validateQuery_req_jsonBody j,
    validateHeaders_req_jsonBody j]

theorem effectiveRawBody_getHead (hm : r.method = "GET" ∨ r.method = "HEAD") :
    effectiveRawBody r = Except.ok (Json.obj []) := by
  unfold effectiveRawBody
  rcases hm with h | h <;> simp [h]

theorem body_not_validated_of_rawError {bs : Json → SafeParseResult TBody ET} {err : E}
    (hb : o.bodySchema = some bs) (he : effectiveRawBody r = Except.error err) :
    Slot.body ∉ (runValidators o r c).validated := by
  intro hmem
  unfold runValidators at hmem
  rcases validateHeaders_validated_mem hmem with h1 | h1
  · rcases validatePathParams_validated_mem h1 with h2 | h2
    · rcases validateQuery_validated_mem h2 with h3 | h3
      · rcases validateFormData_validated_mem h3 with h4 | h4
        · rw [validateBody_validated_of_rawError hb he] at h4
          simp at h4
        · exact absurd h4 (by simp)
      · exact absurd h3 (by simp)
    · exact absurd h2 (by simp)
  · exact absurd h1 (by simp)

theorem validateQuery_errors_pathParams :
    (validateQuery o r s).errors.pathParams = s.errors.pathParams := by
  unfold validateQuery
  split
  · rfl
  · split <;> rfl

theorem validatePathParams_validated_of_some
    {ps : List (String × String) → SafeParseResult TPath ET}
    {ctx : RouteContext} {prm : List (String × String)}
    (hp : o.pathParamsSchema = some ps) (hc : c = some ctx)
    (hprm : ctx.params = some prm) :
    (validatePathParams o c s).validated = s.validated ++ [Slot.pathParams] := by
  simp only [validatePathParams, hp, hc, hprm]
  split <;> rfl

theorem validateAndDispatch_handlerCalls_of_empty {u : Option TUser}
    (h : (runValidators o r c).errors.isEmpty = true) :
    (validateAndDispatch o r c u).handlerCalls = [dispatchParams o r c u] := by
  unfold validateAndDispatch dispatchParams
  simp only [h, if_true]
  split <;> rfl

end PipelineLemmas

/-
Concrete instances used by the counterexamples and witnesses below.
Type parameters are instantiated at small concrete types; exceptions are
plain strings.
-/

/-- A plain POST request with a JSON object body and no query, form or
header entries. -/
def sampleRequest : Request String :=
  { method := "POST"
    jsonBody := Except.ok (Json.obj [("foo", Json.str "bar")])
    formDataBody := Except.ok []
    searchParams := []
    headers := [] }

/-- An auth configuration whose handler always reports a bare failure
outcome (no message, no status). -/
def alwaysFailAuthConfig : AuthConfig Unit String :=
  { handler := fun _ _ => Except.ok { success := false } }

/-- An endpoint with auth that always fails and no validators. -/
def failingAuthOptions : ApiHandlerOptions Unit Unit Unit Unit Unit Nat String String :=
  { auth := some alwaysFailAuthConfig
    handler := fun _ => Except.ok 0 }

/-- An auth configuration whose failure outcome carries a present but
falsy error message (the empty string) and a present but falsy status
code (0). -/
def falsyAuthConfig : AuthConfig Unit String :=
  { handler := fun _ _ =>
      Except.ok { success := false, error := some "", status := some 0 } }

/-- An endpoint with the falsy-failure auth configuration. -/
def falsyAuthOptions : ApiHandlerOptions Unit Unit Unit Unit Unit Nat String String :=
  { auth := some falsyAuthConfig
    handler := fun _ => Except.ok 0 }

/-- An endpoint with no auth and no validators whose business handler
resolves with 7. -/
def plainOkOptions : ApiHandlerOptions Unit Unit Unit Unit Unit Nat String String :=
  { handler := fun _ => Except.ok 7 }

/-- C1, counterexample. The claim quantifies over every request, but a
request rejected by the authentication gate realizes neither of its two
outcomes: the errors record stays empty, the business handler is never
invoked, and the response is a 401 error object rather than a 200 body or
a 400 errors object, so the claimed exactly-one-of-two disjunction fails.
The two disjuncts below are consequences of the two claimed outcomes
(status and invocation count only), and both are false here, which
refutes the claim as stated. -/
theorem claim1_dichotomy_counterexample :
    (apiHandler failingAuthOptions sampleRequest none).response =
      ⟨401, ResponseBody.errorMsg "Unauthorized"⟩ ∧
    ¬ Xor'
      ((runValidators failingAuthOptions sampleRequest none).errors.isEmpty = true ∧
        (apiHandler failingAuthOptions sampleRequest none).handlerCalls.length = 1 ∧
        (apiHandler failingAuthOptions sampleRequest none).response.status = 200)
      ((runValidators failingAuthOptions sampleRequest none).errors.isEmpty = false ∧
        (apiHandler failingAuthOptions sampleRequest none).handlerCalls.length = 0 ∧
        (apiHandler failingAuthOptions sampleRequest none).response.status = 400) := by
  constructor
  · rfl
  · intro h
    rcases h with ⟨⟨_, h2, _⟩, _⟩ | ⟨⟨h1, _, _⟩, _⟩
    · exact absurd h2 (by decide)
    · exact absurd h1 (by decide)

/-- C1 (amended): for every request that the authentication gate lets
through and whose business handler resolves without throwing, exactly one
outcome holds: either the per-slot errors record is empty, the business
handler is invoked exactly once with the validated value or absence for
each slot, the authenticated user or absence, and the raw request, and its
resolved output becomes the 200-status response body verbatim; or the
errors record is non-empty, the business handler is never invoked, and the
response is a single 400 error carrying the full per-slot error record
under the errors field. -/
theorem claim1_dichotomy
    (o : ApiHandlerOptions TBody TQuery TPath THeaders TUser TOutput ET E)
    (r : Request E) (c : Option RouteContext)
    (hauth : authPasses o r)
    (hok : ∀ p, ∃ out, o.handler p = Except.ok out) :
    Xor'
      ((runValidators o r c).errors.isEmpty = true ∧
        (apiHandler o r c).handlerCalls = [dispatchParams o r c (authUser o r)] ∧
        ∃ out, o.handler (dispatchParams o r c (authUser o r)) = Except.ok out ∧
          (apiHandler o r c).response = ⟨200, ResponseBody.output out⟩)
      ((runValidators o r c).errors.isEmpty = false ∧
        (apiHandler o r c).handlerCalls = [] ∧
        (apiHandler o r c).response =
          ⟨400, ResponseBody.errors (runValidators o r c).errors⟩) := by
  rw [apiHandler_of_authPasses hauth]
  cases he : (runValidators o r c).errors.isEmpty with
  | false =>
    refine Or.inr ⟨?_, ?_⟩
    · rw [validateAndDispatch_of_errors he]
      exact ⟨rfl, rfl, rfl⟩
    · intro hA
      exact absurd hA.1 (by simp)
  | true =>
    obtain ⟨out, hout⟩ := hok (dispatchParams o r c (authUser o r))
    refine Or.inl ⟨?_, ?_⟩
    · rw [validateAndDispatch_of_ok he hout]
      exact ⟨rfl, rfl, out, hout, rfl⟩
    · intro hB
      exact absurd hB.1 (by simp)

/-- C1 witness: the amended dichotomy evaluated on a concrete endpoint
with no validators and a handler resolving 7; the success outcome holds. -/
theorem claim1_dichotomy_witness :
    Xor'
      ((runValidators plainOkOptions sampleRequest none).errors.isEmpty = true ∧
        (apiHandler plainOkOptions sampleRequest none).handlerCalls =
          [dispatchParams plainOkOptions sampleRequest none
            (authUser plainOkOptions sampleRequest)] ∧
        ∃ out, plainOkOptions.handler
            (dispatchParams plainOkOptions sampleRequest none
              (authUser plainOkOptions sampleRequest)) = Except.ok out ∧
          (apiHandler plainOkOptions sampleRequest none).response =
            ⟨200, ResponseBody.output out⟩)
      ((runValidators plainOkOptions sampleRequest none).errors.isEmpty = false ∧
        (apiHandler plainOkOptions sampleRequest none).handlerCalls = [] ∧
        (apiHandler plainOkOptions sampleRequest none).response =
          ⟨400, ResponseBody.errors
            (runValidators plainOkOptions sampleRequest none).errors⟩) :=
  claim1_dichotomy plainOkOptions sampleRequest none trivial
    (fun _ => ⟨7, rfl⟩)

/-- C2, counterexample. The auth handler reports failure with a present
error message (the empty string) and a present status code (0); the claim
says the response carries that message and status since both are present,
but the source applies JavaScript || defaults, which also replace falsy
present values, so the response is 401 Unauthorized instead. -/
theorem claim2_auth_default_counterexample :
    falsyAuthOptions.auth = some falsyAuthConfig ∧
    falsyAuthConfig.handler sampleRequest falsyAuthConfig.options =
      Except.ok { success := false, error := some "", status := some 0 } ∧
    (apiHandler falsyAuthOptions sampleRequest none).response ≠
      ⟨0, ResponseBody.errorMsg ""⟩ ∧
    (apiHandler falsyAuthOptions sampleRequest none).response =
      ⟨401, ResponseBody.errorMsg "Unauthorized"⟩ := by
  refine ⟨rfl, rfl, ?_, rfl⟩
  decide

/-- C2 (amended): on an auth failure outcome no slot validator runs, the
business handler is never invoked, and the response carries the outcome's
error message and status code, except that the defaults Unauthorized and
401 are substituted when the outcome's error is absent or empty and when
its status is absent or zero (JavaScript falsiness), respectively. -/
theorem claim2_auth_short_circuit
    (o : ApiHandlerOptions TBody TQuery TPath THeaders TUser TOutput ET E)
    (r : Request E) (c : Option RouteContext)
    (a : AuthConfig TUser E) (ar : AuthResult TUser)
    (ha : o.auth = some a)
    (hr : a.handler r a.options = Except.ok ar)
    (hs : ar.success = false) :
    (apiHandler o r c).response =
      ⟨jsOrNat ar.status 401,
        ResponseBody.errorMsg (jsOrString ar.error "Unauthorized")⟩ ∧
    (apiHandler o r c).validated = [] ∧
    (apiHandler o r c).handlerCalls = [] := by
  simp only [apiHandler, ha, hr, hs, Bool.false_eq_true, if_false]
  exact ⟨trivial, trivial, trivial⟩

/-- C2 witness: the amended short-circuit evaluated on the concrete
falsy-failure auth endpoint. -/
theorem claim2_auth_short_circuit_witness :
    (apiHandler falsyAuthOptions sampleRequest none).response =
      ⟨jsOrNat (some 0) 401, ResponseBody.errorMsg (jsOrString (some "") "Unauthorized")⟩ ∧
    (apiHandler falsyAuthOptions sampleRequest none).validated = [] ∧
    (apiHandler falsyAuthOptions sampleRequest none).handlerCalls = [] :=
  claim2_auth_short_circuit falsyAuthOptions sampleRequest none falsyAuthConfig
    { success := false, error := some "", status := some 0 } rfl rfl rfl

/-- Query schema of the multi-slot example: requires a key q with at
least two characters. -/
def lengthQuerySchema : List (String × String) → SafeParseResult String String :=
  fun rec =>
    match rec.lookup "q" with
    | some v =>
      if 2 ≤ v.length then SafeParseResult.success v
      else SafeParseResult.failure "String must contain at least 2 character(s)"
    | none => SafeParseResult.failure "Required"

/-- Header schema of the multi-slot example: requires a key x-token whose
value starts with the three characters t, o, k. -/
def tokenHeaderSchema : List (String × String) → SafeParseResult String String :=
  fun rec =>
    match rec.lookup "x-token" with
    | some v =>
      if v.data.take 3 = ['t', 'o', 'k'] then SafeParseResult.success v
      else SafeParseResult.failure "Invalid"
    | none => SafeParseResult.failure "Required"

/-- An endpoint validating both the query string and the headers. -/
def multiSlotOptions : ApiHandlerOptions Unit String Unit String Unit Nat String String :=
  { querySchema := some lengthQuerySchema
    headerSchema := some tokenHeaderSchema
    handler := fun _ => Except.ok 0 }

/-- A request that violates both the query schema (q shorter than 2) and
the header schema (x-token does not start with tok). -/
def multiSlotRequest : Request String :=
  { method := "GET"
    jsonBody := Except.ok (Json.obj [])
    formDataBody := Except.ok []
    searchParams := [("q", "a")]
    headers := [("x-token", "zzz")] }

/-- C3: validation is not fail-fast across slots. With a configured query
schema and a configured header schema that both reject, both safeParse
calls run, both slot errors appear simultaneously in the errors record,
the response is a single 400 carrying that record, and the business
handler is never invoked. -/
theorem claim3_multi_slot_aggregation
    (o : ApiHandlerOptions TBody TQuery TPath THeaders TUser TOutput ET E)
    (r : Request E) (c : Option RouteContext)
    (qs : List (String × String) → SafeParseResult TQuery ET)
    (hsch : List (String × String) → SafeParseResult THeaders ET)
    (eQ eH : ET)
    (hauth : authPasses o r)
    (hq : o.querySchema = some qs)
    (hh : o.headerSchema = some hsch)
    (hfq : qs (buildRecord r.searchParams) = SafeParseResult.failure eQ)
    (hfh : hsch (buildRecord r.headers) = SafeParseResult.failure eH) :
    (runValidators o r c).errors.query = some (SlotError.tree eQ) ∧
    (runValidators o r c).errors.headers = some (SlotError.tree eH) ∧
    Slot.query ∈ (apiHandler o r c).validated ∧
    Slot.headers ∈ (apiHandler o r c).validated ∧
    (apiHandler o r c).response =
      ⟨400, ResponseBody.errors (runValidators o r c).errors⟩ ∧
    (apiHandler o r c).handlerCalls = [] := by
  have hQerr : (runValidators o r c).errors.query = some (SlotError.tree eQ) := by
    unfold runValidators
    rw [validateHeaders_errors_query, validatePathParams_errors_query,
      validateQuery_errors_of_failure hq hfq]
  have hHerr : (runValidators o r c).errors.headers = some (SlotError.tree eH) := by
    unfold runValidators
    rw [validateHeaders_errors_of_failure hh hfh]
  have hfalse := isEmpty_eq_false_of_query hQerr
  have hapi : apiHandler o r c =
      ⟨⟨400, ResponseBody.errors (runValidators o r c).errors⟩, [],
        (runValidators o r c).validated⟩ := by
    rw [apiHandler_of_authPasses hauth, validateAndDispatch_of_errors hfalse]
  have hmq : Slot.query ∈ (runValidators o r c).validated := by
    unfold runValidators
    apply validateHeaders_validated_mem_of_mem
    apply validatePathParams_validated_mem_of_mem
    rw [validateQuery_validated_of_some hq]
    simp
  have hmh : Slot.headers ∈ (runValidators o r c).validated := by
    unfold runValidators
    rw [validateHeaders_validated_of_some hh]
    simp
  refine ⟨hQerr, hHerr, ?_, ?_, ?_, ?_⟩
  · rw [hapi]
    exact hmq
  · rw [hapi]
    exact hmh
  · rw [hapi]
  · rw [hapi]

/-- C3 witness: the concrete request with q too short and a bad x-token
header yields both slot errors in the same response and both validators
ran. -/
theorem claim3_multi_slot_aggregation_witness :
    (runValidators multiSlotOptions multiSlotRequest none).errors.query =
      some (SlotError.tree "String must contain at least 2 character(s)") ∧
    (runValidators multiSlotOptions multiSlotRequest none).errors.headers =
      some (SlotError.tree "Invalid") ∧
    Slot.query ∈ (apiHandler multiSlotOptions multiSlotRequest none).validated ∧
    Slot.headers ∈ (apiHandler multiSlotOptions multiSlotRequest none).validated ∧
    (apiHandler multiSlotOptions multiSlotRequest none).response =
      ⟨400, ResponseBody.errors
        (runValidators multiSlotOptions multiSlotRequest none).errors⟩ ∧
    (apiHandler multiSlotOptions multiSlotRequest none).handlerCalls = [] :=
  claim3_multi_slot_aggregation multiSlotOptions multiSlotRequest none
    lengthQuerySchema tokenHeaderSchema
    "String must contain at least 2 character(s)" "Invalid"
    trivial rfl rfl rfl rfl

/-- Metadata carrying only the mandatory summary. -/
def sampleMetadata : OpenApiMetadata := { summary := "sample" }

/-- C4: registration normalizes the path into the brace dialect:
registering /users/[id] and registering /users/{id} store the identical
path value /users/{id}, and any path that already contains a brace is
stored unchanged. -/
theorem claim4_path_normalization :
    ((@registerOpenApiRoute Unit Unit Unit Unit Unit Unit String String
        "get" "/users/[id]" none none none none none none none sampleMetadata
        []).map RouteEntry.path =
      (@registerOpenApiRoute Unit Unit Unit Unit Unit Unit String String
        "get" "/users/{id}" none none none none none none none sampleMetadata
        []).map RouteEntry.path) ∧
    ((@registerOpenApiRoute Unit Unit Unit Unit Unit Unit String String
        "get" "/users/{id}" none none none none none none none sampleMetadata
        []).map RouteEntry.path = ["/users/{id}"]) ∧
    (∀ p : String, p.data.contains '{' = true → openApiPath p = p) := by
  refine ⟨rfl, rfl, ?_⟩
  intro p hp
  unfold openApiPath
  rw [hp]
  rfl

/-- C4 witness: a concrete canonical path containing a brace is stored
unchanged by the normalization. -/
theorem claim4_path_normalization_witness :
    openApiPath "/tenants/{tid}/users" = "/tenants/{tid}/users" :=
  claim4_path_normalization.2.2 "/tenants/{tid}/users" (by decide)

/-- Body schema of the body-validation example: accepts an object whose
first field is foo with a string value. -/
def fooStringBodySchema : Json → SafeParseResult Json String :=
  fun j =>
    match j with
    | Json.obj (("foo", Json.str s) :: _) => SafeParseResult.success (Json.str s)
    | _ => SafeParseResult.failure "Expected object with foo: string"

/-- An endpoint validating only the body. -/
def bodyOnlyOptions : ApiHandlerOptions Json Unit Unit Unit Unit Nat String String :=
  { bodySchema := some fooStringBodySchema
    handler := fun _ => Except.ok 1 }

/-- A POST request whose body read rejects (malformed JSON). -/
def badJsonRequest : Request String :=
  { method := "POST"
    jsonBody := Except.error "SyntaxError: Unexpected token"
    formDataBody := Except.ok []
    searchParams := []
    headers := [] }

/-- A GET request whose transport body read would reject; the pipeline
must not read it. -/
def getRequest : Request String :=
  { method := "GET"
    jsonBody := Except.error "body already consumed"
    formDataBody := Except.ok []
    searchParams := []
    headers := [] }

/-- C5: body handling with a configured body schema. For GET and HEAD the
raw body is the empty object and the transport body is never read (the
validator results are invariant under any change of the json read
result); a rejected body read records the fixed sentinel message and the
schema is not attempted; a schema rejection records the structured issue
tree instead. -/
theorem claim5_body_validation
    (o : ApiHandlerOptions TBody TQuery TPath THeaders TUser TOutput ET E)
    (r : Request E) (c : Option RouteContext)
    (bs : Json → SafeParseResult TBody ET)
    (hb : o.bodySchema = some bs) :
    ((r.method = "GET" ∨ r.method = "HEAD") →
      effectiveRawBody r = Except.ok (Json.obj []) ∧
      ∀ j : Except E Json,
        runValidators o { r with jsonBody := j } c = runValidators o r c) ∧
    (∀ err : E, effectiveRawBody r = Except.error err →
      (runValidators o r c).errors.body =
        some (SlotError.msg "Invalid JSON in request body") ∧
      Slot.body ∉ (runValidators o r c).validated) ∧
    (∀ (raw : Json) (et : ET), effectiveRawBody r = Except.ok raw →
      bs raw = SafeParseResult.failure et →
      (runValidators o r c).errors.body = some (SlotError.tree et)) := by
  refine ⟨fun hm => ⟨effectiveRawBody_getHead hm,
      fun j => runValidators_getHead_jsonBody_irrelevant hm j⟩, ?_, ?_⟩
  · intro err herr
    constructor
    · unfold runValidators
      rw [validateHeaders_errors_body, validatePathParams_errors_body,
        validateQuery_errors_body, validateFormData_errors_body,
        validateBody_errors_of_rawError hb herr]
    · exact body_not_validated_of_rawError hb herr
  · intro raw et hok hf
    unfold runValidators
    rw [validateHeaders_errors_body, validatePathParams_errors_body,
      validateQuery_errors_body, validateFormData_errors_body,
      validateBody_errors_of_parseFailure hb hok hf]

/-- C5 witness: on the malformed-JSON POST the body slot holds the fixed
sentinel and the body schema never ran; on the GET request the raw body
is the empty object (despite a rejecting transport read) and the schema
rejection is recorded as an issue tree. -/
theorem claim5_body_validation_witness :
    ((runValidators bodyOnlyOptions badJsonRequest none).errors.body =
        some (SlotError.msg "Invalid JSON in request body") ∧
      Slot.body ∉ (runValidators bodyOnlyOptions badJsonRequest none).validated) ∧
    effectiveRawBody getRequest = Except.ok (Json.obj []) ∧
    (runValidators bodyOnlyOptions getRequest none).errors.body =
      some (SlotError.tree "Expected object with foo: string") :=
  ⟨(claim5_body_validation bodyOnlyOptions badJsonRequest none fooStringBodySchema
      rfl).2.1 "SyntaxError: Unexpected token" rfl,
    ((claim5_body_validation bodyOnlyOptions getRequest none fooStringBodySchema
      rfl).1 (Or.inl rfl)).1,
    (claim5_body_validation bodyOnlyOptions getRequest none fooStringBodySchema
      rfl).2.2 (Json.obj []) "Expected object with foo: string" rfl rfl⟩

theorem validateBody_body_of_success
    {o : ApiHandlerOptions TBody TQuery TPath THeaders TUser TOutput ET E}
    {r : Request E} {s : ValState TBody TQuery TPath THeaders ET}
    {bs : Json → SafeParseResult TBody ET} {raw : Json} {d : TBody}
    (hb : o.bodySchema = some bs) (hraw : effectiveRawBody r = Except.ok raw)
    (hd : bs raw = SafeParseResult.success d) :
    (validateBody o r s).body = some d := by
  simp only [validateBody, hb, hraw, hd]

/-- Metadata explicitly excluded from the docs. -/
def hiddenMetadata : OpenApiMetadata :=
  { summary := "hidden", includeInDocs := some false }

/-- An endpoint whose metadata excludes it from the docs. -/
def hiddenDocsOptions : ApiHandlerOptions Unit Unit Unit Unit Unit Nat String String :=
  { openapi := some hiddenMetadata
    handler := fun _ => Except.ok 3 }

/-- C6: an endpoint whose metadata sets includeInDocs to false is never
registered (the registration step leaves the registry unchanged, with no
error), the returned request handler is exactly the plain dispatching
handler, and a registry without entries for the method and canonical path
still synthesizes to a document with zero such entries. -/
theorem claim6_docs_exclusion
    (o : ApiHandlerOptions TBody TQuery TPath THeaders TUser TOutput ET E)
    (md : OpenApiMetadata) (method path : String) (reg : Registry)
    (cfg : Option OpenApiConfigOverride)
    (hmd : o.openapi = some md)
    (hfalse : md.includeInDocs = some false) :
    (createDocumentedApiHandler method path o reg).1 = reg ∧
    (createDocumentedApiHandler method path o reg).2 = createApiHandler o ∧
    ((generateOpenApiDocument cfg (some reg)).countEntries method.toLower
        (openApiPath path) = 0 →
      (generateOpenApiDocument cfg
          (some (createDocumentedApiHandler method path o reg).1)).countEntries
        method.toLower (openApiPath path) = 0) := by
  have h1 : (createDocumentedApiHandler method path o reg).1 = reg := by
    simp [createDocumentedApiHandler, hmd, hfalse]
  exact ⟨h1, rfl, fun h0 => by rw [h1]; exact h0⟩

/-- C6 witness: the concrete excluded endpoint leaves an empty registry
empty, still returns the dispatching handler, and the synthesized
document has zero entries for its method and path. -/
theorem claim6_docs_exclusion_witness :
    (createDocumentedApiHandler "get" "/hidden" hiddenDocsOptions []).1 = [] ∧
    (createDocumentedApiHandler "get" "/hidden" hiddenDocsOptions []).2 =
      createApiHandler hiddenDocsOptions ∧
    (generateOpenApiDocument none
        (some (createDocumentedApiHandler "get" "/hidden"
          hiddenDocsOptions []).1)).countEntries
      "get".toLower (openApiPath "/hidden") = 0 := by
  have h := claim6_docs_exclusion hiddenDocsOptions hiddenMetadata "get" "/hidden"
    [] none rfl rfl
  exact ⟨h.1, h.2.1, h.2.2 rfl⟩

/-- An auth configuration whose handler throws. -/
def throwingAuthConfig : AuthConfig Unit String :=
  { handler := fun _ _ => Except.error "boom: secret auth detail" }

/-- An endpoint whose auth handler throws. -/
def throwingAuthOptions : ApiHandlerOptions Unit Unit Unit Unit Unit Nat String String :=
  { auth := some throwingAuthConfig
    handler := fun _ => Except.ok 0 }

/-- An endpoint whose business handler throws. -/
def throwingHandlerOptions : ApiHandlerOptions Unit Unit Unit Unit Unit Nat String String :=
  { handler := fun _ => Except.error "TypeError: secret internal detail" }

/-- C7: an exception thrown by the auth handler or by the business handler
(the two awaited calls not guarded by an inner catch) is reported as a 500
response whose body is exactly the fixed opaque message, independently of
the thrown value, so the details of the exception never appear in the
response body. -/
theorem claim7_uncaught_exception_internal500
    (o : ApiHandlerOptions TBody TQuery TPath THeaders TUser TOutput ET E)
    (r : Request E) (c : Option RouteContext) :
    (∀ (a : AuthConfig TUser E) (e : E), o.auth = some a →
      a.handler r a.options = Except.error e →
      (apiHandler o r c).response =
        ⟨500, ResponseBody.errorMsg "Internal server error"⟩ ∧
      (apiHandler o r c).handlerCalls = []) ∧
    (∀ e : E, authPasses o r → (runValidators o r c).errors.isEmpty = true →
      o.handler (dispatchParams o r c (authUser o r)) = Except.error e →
      (apiHandler o r c).response =
        ⟨500, ResponseBody.errorMsg "Internal server error"⟩) := by
  constructor
  · intro a e ha he
    simp only [apiHandler, ha, he]
    exact ⟨trivial, trivial⟩
  · intro e hauth hempty hout
    rw [apiHandler_of_authPasses hauth,
      validateAndDispatch_of_handlerError hempty hout]

/-- C7 witness: a throwing auth handler and a throwing business handler
both produce the opaque 500 on concrete endpoints; the thrown strings do
not occur in the response. -/
theorem claim7_uncaught_exception_internal500_witness :
    (apiHandler throwingAuthOptions sampleRequest none).response =
      ⟨500, ResponseBody.errorMsg "Internal server error"⟩ ∧
    (apiHandler throwingAuthOptions sampleRequest none).handlerCalls = [] ∧
    (apiHandler throwingHandlerOptions sampleRequest none).response =
      ⟨500, ResponseBody.errorMsg "Internal server error"⟩ := by
  have h1 := (claim7_uncaught_exception_internal500 throwingAuthOptions sampleRequest
    none).1 throwingAuthConfig "boom: secret auth detail" rfl rfl
  have h2 := (claim7_uncaught_exception_internal500 throwingHandlerOptions sampleRequest
    none).2 "TypeError: secret internal detail" trivial rfl rfl
  exact ⟨h1.1, h1.2, h2⟩

/-- Path-parameter schema of the concrete example: requires key id. -/
def idPathSchema : List (String × String) → SafeParseResult String String :=
  fun rec =>
    match rec.lookup "id" with
    | some v => SafeParseResult.success v
    | none => SafeParseResult.failure "Required"

/-- An endpoint validating only path parameters. -/
def pathParamsOptions : ApiHandlerOptions Unit Unit String Unit Unit Nat String String :=
  { pathParamsSchema := some idPathSchema
    handler := fun _ => Except.ok 0 }

/-- C8: with a configured path-parameter schema, validation of path
parameters runs only when the dispatch context supplies an extracted
mapping; when it supplies none, no pathParams error is recorded, the
pathParams safeParse never runs, and dispatch behaves exactly as if no
path-parameter schema were configured. -/
theorem claim8_pathparams_require_context
    (o : ApiHandlerOptions TBody TQuery TPath THeaders TUser TOutput ET E)
    (r : Request E)
    (ps : List (String × String) → SafeParseResult TPath ET)
    (hp : o.pathParamsSchema = some ps) :
    (∀ c, contextParams c = none →
      (runValidators o r c).errors.pathParams = none ∧
      Slot.pathParams ∉ (runValidators o r c).validated ∧
      apiHandler o r c = apiHandler { o with pathParamsSchema := none } r c) ∧
    (∀ (c : Option RouteContext) (ctx : RouteContext)
        (prm : List (String × String)),
      c = some ctx → ctx.params = some prm →
      Slot.pathParams ∈ (runValidators o r c).validated) := by
  constructor
  · intro c hc
    refine ⟨?_, ?_, apiHandler_of_noParams hc⟩
    · unfold runValidators
      rw [validatePathParams_of_noParams hc, validateHeaders_errors_pathParams,
        validateQuery_errors_pathParams, validateFormData_errors_pathParams,
        validateBody_errors_pathParams]
    · intro hmem
      unfold runValidators at hmem
      rw [validatePathParams_of_noParams hc] at hmem
      rcases validateHeaders_validated_mem hmem with h1 | h1
      · rcases validateQuery_validated_mem h1 with h2 | h2
        · rcases validateFormData_validated_mem h2 with h3 | h3
          · rcases validateBody_validated_mem h3 with h4 | h4
            · simp at h4
            · exact absurd h4 (by simp)
          · exact absurd h3 (by simp)
        · exact absurd h2 (by simp)
      · exact absurd h1 (by simp)
  · intro c ctx prm hc hprm
    unfold runValidators
    apply validateHeaders_validated_mem_of_mem
    rw [validatePathParams_validated_of_some hp hc hprm]
    simp

/-- C8 witness: on the concrete path-parameter endpoint, a context without
params records no pathParams error, runs no pathParams validation, and
dispatches as if the schema were absent; a context supplying an id does
run the validation. -/
theorem claim8_pathparams_require_context_witness :
    ((runValidators pathParamsOptions sampleRequest none).errors.pathParams = none ∧
      Slot.pathParams ∉ (runValidators pathParamsOptions sampleRequest none).validated ∧
      apiHandler pathParamsOptions sampleRequest none =
        apiHandler { pathParamsOptions with pathParamsSchema := none }
          sampleRequest none) ∧
    Slot.pathParams ∈ (runValidators pathParamsOptions sampleRequest
      (some { params := some [("id", "7")] })).validated := by
  have h := claim8_pathparams_require_context pathParamsOptions sampleRequest
    idPathSchema rfl
  exact ⟨h.1 none rfl,
    h.2 (some { params := some [("id", "7")] }) { params := some [("id", "7")] }
      [("id", "7")] rfl rfl⟩

/-- Body schema of the double-schema example: always accepts with 1. -/
def constOneBodySchema : Json → SafeParseResult Json String :=
  fun _ => SafeParseResult.success (Json.num 1)

/-- Form-data schema of the double-schema example: always accepts with 2. -/
def constTwoFormSchema : List (String × Json) → SafeParseResult Json String :=
  fun _ => SafeParseResult.success (Json.num 2)

/-- An endpoint configured with both a body schema and a form-data
schema. -/
def doubleBodyOptions : ApiHandlerOptions Json Unit Unit Unit Unit Nat String String :=
  { bodySchema := some constOneBodySchema
    formDataSchema := some constTwoFormSchema
    handler := fun _ => Except.ok 0 }

/-- C9: with both a body schema and a form-data schema configured and both
succeeding, body validation runs first and stores its result in the body
container, then form-data validation overwrites that same container, so
the business handler receives the form-data validation result in its body
field. -/
theorem claim9_formdata_overwrites_body
    (o : ApiHandlerOptions TBody TQuery TPath THeaders TUser TOutput ET E)
    (r : Request E) (c : Option RouteContext)
    (bs : Json → SafeParseResult TBody ET)
    (fs : List (String × Json) → SafeParseResult TBody ET)
    (raw : Json) (pairs : List (String × Json)) (b1 b2 : TBody)
    (hauth : authPasses o r)
    (hb : o.bodySchema = some bs)
    (hf : o.formDataSchema = some fs)
    (hraw : effectiveRawBody r = Except.ok raw)
    (hb1 : bs raw = SafeParseResult.success b1)
    (hpairs : r.formDataBody = Except.ok pairs)
    (hb2 : fs (buildRecord pairs) = SafeParseResult.success b2)
    (hempty : (runValidators o r c).errors.isEmpty = true) :
    (validateBody o r ({} : ValState TBody TQuery TPath THeaders ET)).body =
      some b1 ∧
    (runValidators o r c).body = some b2 ∧
    Slot.body ∈ (runValidators o r c).validated ∧
    Slot.formData ∈ (runValidators o r c).validated ∧
    (apiHandler o r c).handlerCalls.map HandlerParams.body = [some b2] := by
  have hbody : (runValidators o r c).body = some b2 := by
    unfold runValidators
    rw [validateHeaders_body, validatePathParams_body, validateQuery_body,
      validateFormData_body_of_success hf hpairs hb2]
  refine ⟨validateBody_body_of_success hb hraw hb1, hbody, ?_, ?_, ?_⟩
  · unfold runValidators
    apply validateHeaders_validated_mem_of_mem
    apply validatePathParams_validated_mem_of_mem
    apply validateQuery_validated_mem_of_mem
    rw [validateFormData_validated_of_parsed hf hpairs,
      validateBody_validated_of_parsed hb hraw]
    simp
  · unfold runValidators
    apply validateHeaders_validated_mem_of_mem
    apply validatePathParams_validated_mem_of_mem
    apply validateQuery_validated_mem_of_mem
    rw [validateFormData_validated_of_parsed hf hpairs]
    simp
  · rw [apiHandler_of_authPasses hauth,
      validateAndDispatch_handlerCalls_of_empty hempty]
    simp [dispatchParams, hbody]

/-- C9 witness: on the concrete endpoint whose body schema yields 1 and
whose form schema yields 2, the handler receives 2 in the body field,
even though the body schema stored 1 first (and the two values differ). -/
theorem claim9_formdata_overwrites_body_witness :
    (validateBody doubleBodyOptions sampleRequest
      ({} : ValState Json Unit Unit Unit String)).body = some (Json.num 1) ∧
    (runValidators doubleBodyOptions sampleRequest none).body =
      some (Json.num 2) ∧
    (apiHandler doubleBodyOptions sampleRequest none).handlerCalls.map
      HandlerParams.body = [some (Json.num 2)] ∧
    Json.num 1 ≠ Json.num 2 := by
  have h := claim9_formdata_overwrites_body doubleBodyOptions sampleRequest none
    constOneBodySchema constTwoFormSchema
    (Json.obj [("foo", Json.str "bar")]) [] (Json.num 1) (Json.num 2)
    trivial rfl rfl rfl rfl rfl rfl rfl
  exact ⟨h.1, h.2.1, h.2.2.2.2, by simp⟩

/-- C10: path normalization is all-or-nothing on the presence of an
opening brace: a registered path containing at least one brace is stored
entirely unchanged, so the mixed-dialect path keeps its bracket segment,
while a path without braces has every bracket segment rewritten. -/
theorem claim10_mixed_dialect :
    (∀ p : String, p.data.contains '{' = true →
      (@registerOpenApiRoute Unit Unit Unit Unit Unit Unit String String
        "get" p none none none none none none none sampleMetadata []).map
          RouteEntry.path = [p]) ∧
    openApiPath "/a/{x}/b/[y]" = "/a/{x}/b/[y]" ∧
    openApiPath "/a/[x]/b/[y]" = "/a/{x}/b/{y}" := by
  refine ⟨?_, rfl, rfl⟩
  intro p hp
  have hop : openApiPath p = p := by
    unfold openApiPath
    rw [hp]
    rfl
  simp [registerOpenApiRoute, Registry.registerPath, hop]

/-- C10 witness: registering the concrete mixed-dialect path stores it
unchanged, bracket segment included. -/
theorem claim10_mixed_dialect_witness :
    (@registerOpenApiRoute Unit Unit Unit Unit Unit Unit String String
      "get" "/a/{x}/b/[y]" none none none none none none none sampleMetadata
      []).map RouteEntry.path = ["/a/{x}/b/[y]"] :=
  claim10_mixed_dialect.1 "/a/{x}/b/[y]" (by decide)

end NextTypesafeApi
